import Mathlib

/-!
Shallow embedding of `src/audiomd/audiomd.py` (Digital-Preservation-Finland
audiomd): builders for AudioMD metadata trees over lxml.etree elements.

Elements are modelled structurally (qualified tag, attribute list in
insertion order, children in document order, optional text).  Python
exceptions reachable from the module are modelled with `Except`.  Python
truthiness is made explicit: `None` and `""` are falsy, a list is truthy iff
non-empty, and an lxml element is truthy iff it has children.
-/

/-- XML element as produced by lxml.etree in this module: Clark-notation
qualified tag, attributes in insertion order, children in document order,
and optional text content. -/
structure Element where
  tag : String
  attrs : List (String × String)
  children : List Element
  text : Option String

/-- Python exception kinds reachable from the module's code paths. -/
inductive PyError where
  | indexError
  | attributeError
  | typeError
deriving DecidableEq, Repr

/-- A duck-typed Python argument for the repeatable text fields: `None`, a
single string, or a list of strings. -/
inductive PyVal where
  | none
  | str (s : String)
  | list (l : List String)
deriving DecidableEq, Repr

def AudioMD_NS : String := "http://www.loc.gov/audioMD/"

def XSI_NS : String := "http://www.w3.org/2001/XMLSchema-instance"

/-- Clark notation `{ns}tag`, modelling the Python format string
`'\x7b%s\x7d%s' % (ns, tag)`. -/
def clark (ns tag : String) : String := "\x7b" ++ ns ++ "\x7d" ++ tag

/-- `xml_helpers.utils.xsi_ns` (external collaborator): Clark-notation tag in
the XSI namespace. -/
def xsi_ns (tag : String) : String := clark XSI_NS tag

/-- `audiomd_ns(tag, prefix="")`: prefix tags with the AudioMD namespace.
With a non-empty prefix the source reads `tag[0]`, which raises `IndexError`
on an empty tag; otherwise the first character is upcased and appended to the
prefix. -/
def audiomd_ns (tag : String) (pfx : String) : Except PyError String :=
  if pfx != "" then
    match tag.data with
    | [] => Except.error PyError.indexError
    | c :: cs => Except.ok (clark AudioMD_NS (pfx ++ String.mk (c.toUpper :: cs)))
  else
    Except.ok (clark AudioMD_NS tag)

/-- `_element(tag, prefix="")`: a fresh element with the namespaced tag. -/
def _element (tag : String) (pfx : String) : Except PyError Element :=
  (audiomd_ns tag pfx).map
    (fun q => { tag := q, attrs := [], children := [], text := Option.none })

/-- The prefixless instance of `_element`, which never fails; every call in
the module uses the default empty prefix. -/
def elementNS (tag : String) : Element :=
  { tag := clark AudioMD_NS tag, attrs := [], children := [], text := Option.none }

/-- lxml `Element.set`; every element in this module sets each attribute key
at most once, so insertion-order append coincides with lxml's
replace-or-insert behaviour. -/
def Element.set (e : Element) (k v : String) : Element :=
  { e with attrs := e.attrs ++ [(k, v)] }

/-- lxml `parent.append(child)` (also `ET.SubElement`). -/
def Element.appendChild (e c : Element) : Element :=
  { e with children := e.children ++ [c] }

/-- Python truthiness of an optional string: `None` and `""` are falsy. -/
def pyTruthyStr : Option String → Bool
  | some s => s != ""
  | Option.none => false

/-- Python truthiness of the duck-typed value. -/
def PyVal.truthy : PyVal → Bool
  | .none => false
  | .str s => s != ""
  | .list l => !l.isEmpty

/-- Python iteration over the duck-typed value: iterating a string yields its
characters as one-character strings. -/
def PyVal.iter : PyVal → List String
  | .none => []
  | .str s => s.data.map (fun c => String.mk [c])
  | .list l => l

/-- `_one_simple_element(parent, element, element_name)`: when `element` is
truthy, create one subelement and set its text (the prefixless
`_subelement` is inlined; it cannot fail). -/
def _one_simple_element (parent : Element) (element : Option String)
    (element_name : String) : Element :=
  if pyTruthyStr element then
    parent.appendChild
      { tag := clark AudioMD_NS element_name, attrs := [], children := [],
        text := element }
  else parent

/-- `_simple_elements(parent, elements, element_name)`: when `elements` is
truthy, `for element in elements` appends one text child per iterated item —
character by character when `elements` is a bare string. -/
def _simple_elements (parent : Element) (elements : PyVal)
    (element_name : String) : Element :=
  if elements.truthy then
    elements.iter.foldl
      (fun p t => p.appendChild
        { tag := clark AudioMD_NS element_name, attrs := [], children := [],
          text := some t })
      parent
  else parent

/-- `_add_elements(parent, elements)`: append pre-built elements in order. -/
def _add_elements (parent : Element) (elements : List Element) : Element :=
  if !elements.isEmpty then elements.foldl Element.appendChild parent
  else parent

/-- Models `if x: parent.append(x)` for an optional pre-built section under
lxml truthiness: `None` is falsy and an element is truthy iff it has
children. -/
def appendIfTruthy (parent : Element) (v : Option Element) : Element :=
  match v with
  | some e => if !e.children.isEmpty then parent.appendChild e else parent
  | Option.none => parent

/-- `audiomd(...)`: the root builder.  Sets the schema-location and
`ANALOGDIGITALFLAG` attributes, then attaches the four optional pre-built
sections in fixed order, each guarded by lxml truthiness. -/
def audiomd (ANALOGDIGITALFLAG : String)
    (fileData physicalData audioInfo calibrationInfo : Option Element) :
    Element :=
  let a := elementNS "amd"
  let a := a.set (xsi_ns "schemaLocation") "http://www.loc.gov/audioMD/"
  let a := a.set "ANALOGDIGITALFLAG" ANALOGDIGITALFLAG
  let a := appendIfTruthy a fileData
  let a := appendIfTruthy a physicalData
  let a := appendIfTruthy a audioInfo
  let a := appendIfTruthy a calibrationInfo
  a

/-- `amd_fileData(...)`: ~20 fields in fixed schema order; `messageDigest`
and `Compression` are lists of pre-built sub-elements. -/
def amd_fileData
    (audioBlockSize audioDataEncoding bitsPerSample byteOrder : PyVal)
    (messageDigest Compression : List Element)
    (dataRate dataRateMode firstSampleOffset firstValidByteBlock
      formatLocation formatName formatNote formatVersion lastValidByteBlock
      numSampleFrames samplingFrequency security use otherUse
      wordSize : PyVal) : Element :=
  let e := elementNS "fileData"
  let e := _simple_elements e audioBlockSize "audioBlockSize"
  let e := _simple_elements e audioDataEncoding "audioDataEncoding"
  let e := _simple_elements e bitsPerSample "bitsPerSample"
  let e := _simple_elements e byteOrder "byteOrder"
  let e := _add_elements e messageDigest
  let e := _add_elements e Compression
  let e := _simple_elements e dataRate "dataRate"
  let e := _simple_elements e dataRateMode "dataRateMode"
  let e := _simple_elements e firstSampleOffset "firstSampleOffset"
  let e := _simple_elements e firstValidByteBlock "firstValidByteBlock"
  let e := _simple_elements e formatLocation "formatLocation"
  let e := _simple_elements e formatName "formatName"
  let e := _simple_elements e formatNote "formatNote"
  let e := _simple_elements e formatVersion "formatVersion"
  let e := _simple_elements e lastValidByteBlock "lastValidByteBlock"
  let e := _simple_elements e numSampleFrames "numSampleFrames"
  let e := _simple_elements e samplingFrequency "samplingFrequency"
  let e := _simple_elements e security "security"
  let e := _simple_elements e use "use"
  let e := _simple_elements e otherUse "otherUse"
  let e := _simple_elements e wordSize "wordSize"
  e

/-- `amd_messageDigest(...)`: three required children whose text is assigned
unconditionally. -/
def amd_messageDigest (messageDigestDatetime messageDigestAlgorithm
    messageDigest : Option String) : Element :=
  let e := elementNS "messageDigest"
  let e := e.appendChild
    { tag := clark AudioMD_NS "messageDigestDatetime", attrs := [],
      children := [], text := messageDigestDatetime }
  let e := e.appendChild
    { tag := clark AudioMD_NS "messageDigestAlgorithm", attrs := [],
      children := [], text := messageDigestAlgorithm }
  let e := e.appendChild
    { tag := clark AudioMD_NS "messageDigest", attrs := [],
      children := [], text := messageDigest }
  e

/-- `amd_compression(...)`: four optional text children. -/
def amd_compression (codecCreatorApp codecCreatorAppVersion codecName
    codecQuality : Option String) : Element :=
  let e := elementNS "compression"
  let e := _one_simple_element e codecCreatorApp "codecCreatorApp"
  let e := _one_simple_element e codecCreatorAppVersion "codecCreatorAppVersion"
  let e := _one_simple_element e codecName "codecName"
  let e := _one_simple_element e codecQuality "codecQuality"
  e

/-- `amd_physicalData(...)`.  The source passes the module-level *function*
`amd_fileData` — not this builder's root — as the parent of the
`_add_elements` calls for `dimensions`, `material` and `tracking`
(`_add_elements(amd_fileData, dimensions)` etc.); appending to a function
object raises `AttributeError` as soon as the guarded list is non-empty. -/
def amd_physicalData
    (EBUStorageMediaCodes condition : PyVal)
    (dimensions : List Element)
    (disposition equalization generation groove : PyVal)
    (material : List Element)
    (noiseReduction physFormat speed speedAdjustment speedNote
      trackFormat : PyVal)
    (tracking : List Element)
    (note : PyVal) : Except PyError Element :=
  let e := elementNS "physicalData"
  let e := _simple_elements e EBUStorageMediaCodes "EBUStorageMediaCodes"
  let e := _simple_elements e condition "condition"
  if !dimensions.isEmpty then Except.error PyError.attributeError
  else
    let e := _simple_elements e disposition "disposition"
    let e := _simple_elements e equalization "equalization"
    let e := _simple_elements e generation "generation"
    let e := _simple_elements e groove "groove"
    if !material.isEmpty then Except.error PyError.attributeError
    else
      let e := _simple_elements e noiseReduction "noiseReduction"
      let e := _simple_elements e physFormat "physFormat"
      let e := _simple_elements e speed "speed"
      let e := _simple_elements e speedAdjustment "speedAdjustment"
      let e := _simple_elements e speedNote "speedNote"
      let e := _simple_elements e trackFormat "trackFormat"
      if !tracking.isEmpty then Except.error PyError.attributeError
      else
        let e := _simple_elements e note "note"
        Except.ok e

/-- `if value: element.set(KEY, value)` for an optional attribute value. -/
def setAttrIf (e : Element) (k : String) (v : Option String) : Element :=
  if pyTruthyStr v then e.set k (v.getD "") else e

/-- `amd_dimensions(...)`: emits its nine fields as attributes on a single
childless element. -/
def amd_dimensions (depth diameter gauge height length note thickness units
    width : Option String) : Element :=
  let e := elementNS "dimensions"
  let e := setAttrIf e "DEPTH" depth
  let e := setAttrIf e "DIAMETER" diameter
  let e := setAttrIf e "GAUGE" gauge
  let e := setAttrIf e "HEIGHT" height
  let e := setAttrIf e "LENGTH" length
  let e := setAttrIf e "NOTE" note
  let e := setAttrIf e "THICKNESS" thickness
  let e := setAttrIf e "UNITS" units
  let e := setAttrIf e "WIDTH" width
  e

/-- `amd_material(...)`: nine optional text children. -/
def amd_material (baseMaterial binder discSurface oxide activeLayer
    reflectiveLayer stockBrand method usedSides : Option String) : Element :=
  let e := elementNS "material"
  let e := _one_simple_element e baseMaterial "baseMaterial"
  let e := _one_simple_element e binder "binder"
  let e := _one_simple_element e discSurface "discSurface"
  let e := _one_simple_element e oxide "oxide"
  let e := _one_simple_element e activeLayer "activeLayer"
  let e := _one_simple_element e reflectiveLayer "reflectiveLayer"
  let e := _one_simple_element e stockBrand "stockBrand"
  let e := _one_simple_element e method "method"
  let e := _one_simple_element e usedSides "usedSides"
  e

/-- `amd_tracking(...)`: two optional text children. -/
def amd_tracking (trackingType trackingValue : Option String) : Element :=
  let e := elementNS "tracking"
  let e := _one_simple_element e trackingType "trackingType"
  let e := _one_simple_element e trackingValue "trackingValue"
  e

/-- `amd_audioInfo(...)`: three repeatable text fields, a pre-built
`soundChannelMap` list, and a repeatable `soundField`. -/
def amd_audioInfo (duration note numChannels : PyVal)
    (soundChannelMap : List Element) (soundField : PyVal) : Element :=
  let e := elementNS "audioInfo"
  let e := _simple_elements e duration "duration"
  let e := _simple_elements e note "note"
  let e := _simple_elements e numChannels "numChannels"
  let e := _add_elements e soundChannelMap
  let e := _simple_elements e soundField "soundField"
  e

/-- `amd_soundChannelMap(...)`: always creates the single `channelAssignment`
child, then sets up to two attributes on it (the source creates the appended
subelement first and mutates its attributes; here the child is completed
before being attached). -/
def amd_soundChannelMap (channelnum maplocation : Option String) : Element :=
  let sub := elementNS "channelAssignment"
  let sub := setAttrIf sub "CHANNELNUM" channelnum
  let sub := setAttrIf sub "MAPLOCATION" maplocation
  (elementNS "soundChannelMap").appendChild sub

/-- `amd_calibrationInfo(...)`.  The source passes the module-level
*function* `amd_audioInfo` — not this builder's root — as the parent of the
`calibrationTimeStamp` call (`_simple_elements(amd_audioInfo, ...)`);
creating a subelement of a function object raises `TypeError` as soon as
`calibrationTimeStamp` is truthy. -/
def amd_calibrationInfo (calibrationExtInt calibrationLocation : Option String)
    (calibrationTimeStamp : PyVal)
    (calibrationTrackType : Option String) : Except PyError Element :=
  let e := elementNS "calibrationInfo"
  let e := _one_simple_element e calibrationExtInt "calibrationExtInt"
  let e := _one_simple_element e calibrationLocation "calibrationLocation"
  if calibrationTimeStamp.truthy then Except.error PyError.typeError
  else
    Except.ok (_one_simple_element e calibrationTrackType "calibrationTrackType")

/-- Modelled from the spec: the validation-gate error, a typed error
carrying the offending key.  The revision of the module that defines the
mapping-based API (`checkParams`, `get_params`, the `*_PARAMS` lists, called
by the tests as `amd_file_data(params)` etc.) is not under `src/`; only the
keyword-argument revision is. -/
structure UnrecognizedParameterError where
  key : String
deriving DecidableEq, Repr

/-- Modelled from the spec: recognized-key list of the file-data section
(field names as in the keyword-argument revision under `src/`). -/
def FILE_DATA_PARAMS : List String :=
  ["audioBlockSize", "audioDataEncoding", "bitsPerSample", "byteOrder",
   "messageDigest", "Compression", "dataRate", "dataRateMode",
   "firstSampleOffset", "firstValidByteBlock", "formatLocation",
   "formatName", "formatNote", "formatVersion", "lastValidByteBlock",
   "numSampleFrames", "samplingFrequency", "security", "use", "otherUse",
   "wordSize"]

/-- Modelled from the spec: recognized-key list of the physical-data
section. -/
def PHYSICAL_DATA_PARAMS : List String :=
  ["EBUStorageMediaCodes", "condition", "dimensions", "disposition",
   "equalization", "generation", "groove", "material", "noiseReduction",
   "physFormat", "speed", "speedAdjustment", "speedNote", "trackFormat",
   "tracking", "note"]

/-- Modelled from the spec: recognized-key list of the dimensions section
(attribute names, as exercised by the repository's tests). -/
def DIMENSIONS_PARAMS : List String :=
  ["DEPTH", "DIAMETER", "GAUGE", "HEIGHT", "LENGTH", "NOTE", "THICKNESS",
   "UNITS", "WIDTH"]

/-- Modelled from the spec: recognized-key list of the material section. -/
def MATERIAL_PARAMS : List String :=
  ["baseMaterial", "binder", "discSurface", "oxide", "activeLayer",
   "reflectiveLayer", "stockBrand", "method", "usedSides"]

/-- Modelled from the spec: `checkParams(paramMap, recognizedKeys)` fails
with `UnrecognizedParameterError` — carrying the offending key — the moment
any key of the mapping is outside the recognized-key list. -/
def checkParams (paramMap : List (String × PyVal))
    (recognizedKeys : List String) : Except UnrecognizedParameterError Unit :=
  match paramMap.find? (fun kv => !(recognizedKeys.contains kv.1)) with
  | some kv => Except.error ⟨kv.1⟩
  | Option.none => Except.ok ()

/-- Modelled from the spec: a mapping-based section builder validates its
parameter mapping *before* any tree construction, so a bad key never
produces a half-built subtree. -/
def checkedSectionBuilder (recognizedKeys : List String)
    (paramMap : List (String × PyVal))
    (build : List (String × PyVal) → Element) :
    Except UnrecognizedParameterError Element :=
  match checkParams paramMap recognizedKeys with
  | Except.error err => Except.error err
  | Except.ok _ => Except.ok (build paramMap)

/-! ### Helper definitions and lemmas for the statements -/

/-- The attribute contribution of one optional value: one pair when it is a
non-empty string, nothing otherwise. -/
def optAttr (k : String) (v : Option String) : List (String × String) :=
  match v with
  | some s => if s != "" then [(k, s)] else []
  | Option.none => []


/-- A populated file-data subtree used to exercise the root builder. -/
def fileDataSample : Element :=
  amd_fileData (PyVal.list ["8"]) PyVal.none PyVal.none PyVal.none [] []
    PyVal.none PyVal.none PyVal.none PyVal.none PyVal.none PyVal.none
    PyVal.none PyVal.none PyVal.none PyVal.none PyVal.none PyVal.none
    PyVal.none PyVal.none PyVal.none

/-- A populated audio-info subtree used to exercise the root builder. -/
def audioInfoSample : Element :=
  amd_audioInfo (PyVal.list ["PT1H30M"]) PyVal.none PyVal.none [] PyVal.none

/-- The file-data builder applied to a bare (non-list) string for its first
repeatable field. -/
def fileDataBareString : Element :=
  amd_fileData (PyVal.str "PCM") PyVal.none PyVal.none PyVal.none [] []
    PyVal.none PyVal.none PyVal.none PyVal.none PyVal.none PyVal.none
    PyVal.none PyVal.none PyVal.none PyVal.none PyVal.none PyVal.none
    PyVal.none PyVal.none PyVal.none

theorem setAttrIf_eq (e : Element) (k : String) (v : Option String) :
    setAttrIf e k v = { e with attrs := e.attrs ++ optAttr k v } := by
  cases e
  cases v with
  | none => simp [setAttrIf, pyTruthyStr, optAttr]
  | some s =>
    by_cases h : s = "" <;>
      simp [setAttrIf, pyTruthyStr, optAttr, h, Element.set]

/-! ### Claim theorems -/

/-- C1: the claim says the pre-built `dimensions`, `material` and `tracking`
lists are appended as children of the `physicalData` root and that the
builder never appends into another node.  The code instead passes the
module-level function `amd_fileData` as the parent of those three
`_add_elements` calls, so each call raises `AttributeError` as soon as its
list is non-empty: nothing is ever appended to the `physicalData` root. -/
theorem amd_physicalData_wrong_parent_bug :
    (amd_physicalData PyVal.none PyVal.none
        [amd_dimensions (some "1.0") Option.none Option.none Option.none
          Option.none Option.none Option.none Option.none Option.none]
        PyVal.none PyVal.none PyVal.none PyVal.none []
        PyVal.none PyVal.none PyVal.none PyVal.none PyVal.none PyVal.none
        [] PyVal.none
      = Except.error PyError.attributeError) ∧
    (amd_physicalData PyVal.none PyVal.none [] PyVal.none PyVal.none
        PyVal.none PyVal.none
        [amd_material (some "clay") Option.none Option.none Option.none
          Option.none Option.none Option.none Option.none Option.none]
        PyVal.none PyVal.none PyVal.none PyVal.none PyVal.none PyVal.none
        [] PyVal.none
      = Except.error PyError.attributeError) ∧
    (amd_physicalData PyVal.none PyVal.none [] PyVal.none PyVal.none
        PyVal.none PyVal.none [] PyVal.none PyVal.none PyVal.none PyVal.none
        PyVal.none PyVal.none
        [amd_tracking (some "in-line") (some "2")] PyVal.none
      = Except.error PyError.attributeError) :=
  ⟨rfl, rfl, rfl⟩

/-- C3: the claim says no builder raises anything but
`UnrecognizedParameterError`, and in particular that `amd_calibrationInfo`
emits a `calibrationTimeStamp` child.  The code passes the module-level
function `amd_audioInfo` as the parent of the `calibrationTimeStamp` call,
raising `TypeError` whenever that value is truthy; with the field absent the
builder does return its three other children. -/
theorem amd_calibrationInfo_wrong_parent_bug :
    (amd_calibrationInfo Option.none Option.none
        (PyVal.list ["2006-07-14T00:00:00"]) Option.none
      = Except.error PyError.typeError) ∧
    (amd_calibrationInfo (some "Yes") (some "Head") PyVal.none (some "Dolby")
      = Except.ok
          { tag := clark AudioMD_NS "calibrationInfo", attrs := [],
            children :=
              [{ tag := clark AudioMD_NS "calibrationExtInt", attrs := [],
                 children := [], text := some "Yes" },
               { tag := clark AudioMD_NS "calibrationLocation", attrs := [],
                 children := [], text := some "Head" },
               { tag := clark AudioMD_NS "calibrationTrackType", attrs := [],
                 children := [], text := some "Dolby" }],
            text := Option.none }) ∧
    (amd_physicalData PyVal.none (PyVal.list ["worn"]) [] PyVal.none
        PyVal.none PyVal.none PyVal.none [] PyVal.none PyVal.none PyVal.none
        PyVal.none PyVal.none PyVal.none [] PyVal.none
      = Except.ok
          { tag := clark AudioMD_NS "physicalData", attrs := [],
            children :=
              [{ tag := clark AudioMD_NS "condition", attrs := [],
                 children := [], text := some "worn" }],
            text := Option.none }) :=
  ⟨rfl, rfl, rfl⟩

/-- C7: `amd_dimensions` returns a childless, textless element whose
attribute list is exactly the fixed-order concatenation of the non-absent
(non-empty) supplied values, each attribute carrying the supplied value. -/
theorem amd_dimensions_spec (depth diameter gauge height length note
    thickness units width : Option String) :
    amd_dimensions depth diameter gauge height length note thickness units
        width
      = { tag := clark AudioMD_NS "dimensions",
          attrs := optAttr "DEPTH" depth ++ optAttr "DIAMETER" diameter
            ++ optAttr "GAUGE" gauge ++ optAttr "HEIGHT" height
            ++ optAttr "LENGTH" length ++ optAttr "NOTE" note
            ++ optAttr "THICKNESS" thickness ++ optAttr "UNITS" units
            ++ optAttr "WIDTH" width,
          children := [], text := Option.none } := by
  simp [amd_dimensions, setAttrIf_eq, elementNS, List.append_assoc]

/-- C8: `amd_soundChannelMap` always returns exactly one child, the
`channelAssignment` element, carrying one attribute per truthy parameter;
with `("5", "FRONT")` the child carries exactly `CHANNELNUM="5"` and
`MAPLOCATION="FRONT"`. -/
theorem amd_soundChannelMap_spec (channelnum maplocation : Option String) :
    (amd_soundChannelMap channelnum maplocation
      = { tag := clark AudioMD_NS "soundChannelMap", attrs := [],
          children :=
            [{ tag := clark AudioMD_NS "channelAssignment",
               attrs := optAttr "CHANNELNUM" channelnum
                 ++ optAttr "MAPLOCATION" maplocation,
               children := [], text := Option.none }],
          text := Option.none }) ∧
    (amd_soundChannelMap (some "5") (some "FRONT")).children
      = [{ tag := clark AudioMD_NS "channelAssignment",
           attrs := [("CHANNELNUM", "5"), ("MAPLOCATION", "FRONT")],
           children := [], text := Option.none }] := by
  constructor
  · simp [amd_soundChannelMap, setAttrIf_eq, elementNS, Element.appendChild,
      List.append_assoc]
  · rfl

/-- C9: the tag resolver `audiomd_ns` (and hence `_element`) hits the
`tag[0]` index error on an empty local name with a non-empty prefix. -/
theorem audiomd_ns_empty_tag_indexError :
    audiomd_ns "" "linking" = Except.error PyError.indexError ∧
    _element "" "linking" = Except.error PyError.indexError :=
  ⟨rfl, rfl⟩

/-- C10: the root builder guards each supplied section with lxml truthiness
(child count), so a non-None section element with zero children is silently
omitted from the returned root. -/
theorem audiomd_truthiness_omits_childless (flag : String) (e : Element)
    (h : e.children = []) :
    audiomd flag (some e) (some e) (some e) (some e)
      = audiomd flag Option.none Option.none Option.none Option.none := by
  simp [audiomd, appendIfTruthy, h]

/-- C10 witness: an empty material element supplied for every section slot is
omitted, leaving the root with no children. -/
theorem audiomd_truthiness_omits_childless_witness :
    ((amd_material Option.none Option.none Option.none Option.none
        Option.none Option.none Option.none Option.none Option.none).children
      = []) ∧
    audiomd "FileDigital"
        (some (amd_material Option.none Option.none Option.none Option.none
          Option.none Option.none Option.none Option.none Option.none))
        (some (amd_material Option.none Option.none Option.none Option.none
          Option.none Option.none Option.none Option.none Option.none))
        (some (amd_material Option.none Option.none Option.none Option.none
          Option.none Option.none Option.none Option.none Option.none))
        (some (amd_material Option.none Option.none Option.none Option.none
          Option.none Option.none Option.none Option.none Option.none))
      = audiomd "FileDigital" Option.none Option.none Option.none
          Option.none :=
  ⟨rfl, audiomd_truthiness_omits_childless "FileDigital" _ rfl⟩


/-- C5: the root builder sets `ANALOGDIGITALFLAG` and the schema-location
attribute and attaches the supplied sections in the fixed order fileData,
physicalData, audioInfo, calibrationInfo, omitting absent ones; with only a
(non-empty) file-data and audio-info subtree the children are exactly those
two, in that order. -/
theorem audiomd_root_shape (flag : String) (fd ai : Element)
    (hfd : fd.children.isEmpty = false) (hai : ai.children.isEmpty = false) :
    ((audiomd "FileDigital" (some fd) Option.none (some ai)
        Option.none).attrs
      = [(xsi_ns "schemaLocation", "http://www.loc.gov/audioMD/"),
         ("ANALOGDIGITALFLAG", "FileDigital")]) ∧
    ((audiomd "FileDigital" (some fd) Option.none (some ai)
        Option.none).children
      = [fd, ai]) ∧
    (∀ pd ci : Element, pd.children.isEmpty = false →
      ci.children.isEmpty = false →
      (audiomd flag (some fd) (some pd) (some ai) (some ci)).children
        = [fd, pd, ai, ci]) ∧
    ((audiomd flag Option.none Option.none Option.none Option.none).children
      = []) := by
  refine ⟨?_, ?_, ?_, ?_⟩
  · simp [audiomd, appendIfTruthy, hfd, hai, elementNS, Element.set,
      Element.appendChild]
  · simp [audiomd, appendIfTruthy, hfd, hai, elementNS, Element.set,
      Element.appendChild]
  · intro pd ci hpd hci
    simp [audiomd, appendIfTruthy, hfd, hai, hpd, hci, elementNS,
      Element.set, Element.appendChild]
  · simp [audiomd, appendIfTruthy, elementNS, Element.set,
      Element.appendChild]

/-- C5 witness: the root built from a populated file-data and audio-info
subtree carries exactly those two children in order. -/
theorem audiomd_root_shape_witness :
    (fileDataSample.children.isEmpty = false) ∧
    (audioInfoSample.children.isEmpty = false) ∧
    ((audiomd "FileDigital" (some fileDataSample) Option.none
        (some audioInfoSample) Option.none).children
      = [fileDataSample, audioInfoSample]) :=
  ⟨rfl, rfl,
    (audiomd_root_shape "FileDigital" fileDataSample audioInfoSample rfl
      rfl).2.1⟩

/-- C6: every builder is a deterministic function of its inputs — two calls
with structurally equal inputs produce structurally equal trees (for the
root builder the two input vectors are equated by hypothesis; for each
section builder the two calls share one input vector). -/
theorem builders_deterministic
    (flag flag2 : String) (fd fd2 pd pd2 ai ai2 ci ci2 : Option Element)
    (hflag : flag = flag2) (hfd : fd = fd2) (hpd : pd = pd2)
    (hai : ai = ai2) (hci : ci = ci2)
    (f1 f2 f3 f4 : PyVal) (fmd fcp : List Element)
    (f5 f6 f7 f8 f9 f10 f11 f12 f13 f14 f15 f16 f17 f18 f19 : PyVal)
    (m1 m2 m3 : Option String)
    (c1 c2 c3 c4 : Option String)
    (p1 p2 : PyVal) (pdim : List Element) (p3 p4 p5 p6 : PyVal)
    (pmat : List Element) (p7 p8 p9 p10 p11 p12 : PyVal)
    (ptrk : List Element) (p13 : PyVal)
    (d1 d2 d3 d4 d5 d6 d7 d8 d9 : Option String)
    (ma1 ma2 ma3 ma4 ma5 ma6 ma7 ma8 ma9 : Option String)
    (t1 t2 : Option String)
    (a1 a2 a3 : PyVal) (ascm : List Element) (a4 : PyVal)
    (s1 s2 : Option String)
    (cl1 cl2 : Option String) (cl3 : PyVal) (cl4 : Option String) :
    (audiomd flag fd pd ai ci = audiomd flag2 fd2 pd2 ai2 ci2) ∧
    (amd_fileData f1 f2 f3 f4 fmd fcp f5 f6 f7 f8 f9 f10 f11 f12 f13 f14 f15
        f16 f17 f18 f19
      = amd_fileData f1 f2 f3 f4 fmd fcp f5 f6 f7 f8 f9 f10 f11 f12 f13 f14
          f15 f16 f17 f18 f19) ∧
    (amd_messageDigest m1 m2 m3 = amd_messageDigest m1 m2 m3) ∧
    (amd_compression c1 c2 c3 c4 = amd_compression c1 c2 c3 c4) ∧
    (amd_physicalData p1 p2 pdim p3 p4 p5 p6 pmat p7 p8 p9 p10 p11 p12 ptrk
        p13
      = amd_physicalData p1 p2 pdim p3 p4 p5 p6 pmat p7 p8 p9 p10 p11 p12
          ptrk p13) ∧
    (amd_dimensions d1 d2 d3 d4 d5 d6 d7 d8 d9
      = amd_dimensions d1 d2 d3 d4 d5 d6 d7 d8 d9) ∧
    (amd_material ma1 ma2 ma3 ma4 ma5 ma6 ma7 ma8 ma9
      = amd_material ma1 ma2 ma3 ma4 ma5 ma6 ma7 ma8 ma9) ∧
    (amd_tracking t1 t2 = amd_tracking t1 t2) ∧
    (amd_audioInfo a1 a2 a3 ascm a4 = amd_audioInfo a1 a2 a3 ascm a4) ∧
    (amd_soundChannelMap s1 s2 = amd_soundChannelMap s1 s2) ∧
    (amd_calibrationInfo cl1 cl2 cl3 cl4
      = amd_calibrationInfo cl1 cl2 cl3 cl4) := by
  subst hflag hfd hpd hai hci
  exact ⟨rfl, rfl, rfl, rfl, rfl, rfl, rfl, rfl, rfl, rfl, rfl⟩

/-- C6 witness: two root builds from equal concrete inputs coincide. -/
theorem builders_deterministic_witness :
    audiomd "FileDigital" (some fileDataSample) Option.none
        (some audioInfoSample) Option.none
      = audiomd "FileDigital" (some fileDataSample) Option.none
          (some audioInfoSample) Option.none :=
  (builders_deterministic "FileDigital" "FileDigital"
    (some fileDataSample) (some fileDataSample) Option.none Option.none
    (some audioInfoSample) (some audioInfoSample) Option.none Option.none
    rfl rfl rfl rfl rfl
    PyVal.none PyVal.none PyVal.none PyVal.none [] []
    PyVal.none PyVal.none PyVal.none PyVal.none PyVal.none PyVal.none
    PyVal.none PyVal.none PyVal.none PyVal.none PyVal.none PyVal.none
    PyVal.none PyVal.none PyVal.none
    Option.none Option.none Option.none
    Option.none Option.none Option.none Option.none
    PyVal.none PyVal.none [] PyVal.none PyVal.none PyVal.none PyVal.none
    [] PyVal.none PyVal.none PyVal.none PyVal.none PyVal.none PyVal.none
    [] PyVal.none
    Option.none Option.none Option.none Option.none Option.none Option.none
    Option.none Option.none Option.none
    Option.none Option.none Option.none Option.none Option.none Option.none
    Option.none Option.none Option.none
    Option.none Option.none
    PyVal.none PyVal.none PyVal.none [] PyVal.none
    Option.none Option.none
    Option.none Option.none PyVal.none Option.none).1


/-- C2 counterexample: supplying the single non-empty string "PCM" for
`audioBlockSize` does not yield exactly one child with text "PCM" — the
`for` loop iterates the string, yielding three one-character children. -/
theorem amd_fileData_bare_string_counterexample :
    (fileDataBareString.children.length = 3) ∧
    (fileDataBareString.children.map Element.text
      = [some "P", some "C", some "M"]) ∧
    ¬ (fileDataBareString.children.length = 1) :=
  ⟨rfl, rfl, by decide⟩

/-- C2 amended: absent/empty values yield no child; an exactly-one field
(`_one_simple_element`) given a single non-empty string yields exactly one
child with that text; a repeatable field (`_simple_elements`) yields exactly
one such child when the single non-empty string is supplied as a one-element
list, while a bare string is iterated character by character, one child per
character. -/
theorem simple_elements_amended (parent : Element) (tag s : String)
    (h : s ≠ "") :
    (_one_simple_element parent Option.none tag = parent) ∧
    (_one_simple_element parent (some "") tag = parent) ∧
    (_one_simple_element parent (some s) tag
      = parent.appendChild
          { tag := clark AudioMD_NS tag, attrs := [], children := [],
            text := some s }) ∧
    (_simple_elements parent PyVal.none tag = parent) ∧
    (_simple_elements parent (PyVal.str "") tag = parent) ∧
    (_simple_elements parent (PyVal.list []) tag = parent) ∧
    (_simple_elements parent (PyVal.list [s]) tag
      = parent.appendChild
          { tag := clark AudioMD_NS tag, attrs := [], children := [],
            text := some s }) ∧
    (_simple_elements parent (PyVal.str s) tag
      = (s.data.map (fun c => String.mk [c])).foldl
          (fun p t => p.appendChild
            { tag := clark AudioMD_NS tag, attrs := [], children := [],
              text := some t })
          parent) ∧
    ((amd_compression (some s) Option.none Option.none Option.none).children
      = [{ tag := clark AudioMD_NS "codecCreatorApp", attrs := [],
           children := [], text := some s }]) ∧
    ((amd_fileData (PyVal.list [s]) PyVal.none PyVal.none PyVal.none [] []
        PyVal.none PyVal.none PyVal.none PyVal.none PyVal.none PyVal.none
        PyVal.none PyVal.none PyVal.none PyVal.none PyVal.none PyVal.none
        PyVal.none PyVal.none PyVal.none).children
      = [{ tag := clark AudioMD_NS "audioBlockSize", attrs := [],
           children := [], text := some s }]) := by
  have hs : (s != "") = true := by simpa using h
  refine ⟨rfl, rfl, ?_, rfl, rfl, rfl, ?_, ?_, ?_, ?_⟩
  · simp [_one_simple_element, pyTruthyStr, hs]
  · simp [_simple_elements, PyVal.truthy, PyVal.iter]
  · simp [_simple_elements, PyVal.truthy, PyVal.iter, hs]
  · simp [amd_compression, _one_simple_element, pyTruthyStr, hs, elementNS,
      Element.appendChild]
  · simp [amd_fileData, _simple_elements, _add_elements, PyVal.truthy,
      PyVal.iter, elementNS, Element.appendChild]

/-- C2 amended witness: with the non-empty string "PCM", a one-element list
yields exactly one `audioBlockSize` child bearing the full text. -/
theorem simple_elements_amended_witness :
    ("PCM" : String) ≠ "" ∧
    ((amd_fileData (PyVal.list ["PCM"]) PyVal.none PyVal.none PyVal.none []
        [] PyVal.none PyVal.none PyVal.none PyVal.none PyVal.none PyVal.none
        PyVal.none PyVal.none PyVal.none PyVal.none PyVal.none PyVal.none
        PyVal.none PyVal.none PyVal.none).children
      = [{ tag := clark AudioMD_NS "audioBlockSize", attrs := [],
           children := [], text := some "PCM" }]) :=
  ⟨by decide,
    (simple_elements_amended (elementNS "fileData") "audioBlockSize" "PCM"
      (by decide)).2.2.2.2.2.2.2.2.2⟩

/-- C4: `checkParams` succeeds iff every key of the mapping is recognized
(so it never fails for a subset, including the empty mapping); any failure
carries an offending key of the mapping that is outside the recognized-key
list; and a failing check short-circuits a checked section build, so no
tree is produced. -/
theorem checkParams_spec (p : List (String × PyVal)) (ks : List String) :
    (checkParams p ks = Except.ok ()
      ↔ ∀ k ∈ p.map Prod.fst, k ∈ ks) ∧
    (∀ err, checkParams p ks = Except.error err →
      err.key ∈ p.map Prod.fst ∧ err.key ∉ ks) ∧
    (∀ build err, checkParams p ks = Except.error err →
      checkedSectionBuilder ks p build = Except.error err) := by
  have hmem : ∀ kv : String × PyVal,
      (!(ks.contains kv.1)) = true ↔ kv.1 ∉ ks := by
    intro kv
    simp [List.contains_eq_any_beq]
  refine ⟨?_, ?_, ?_⟩
  · cases hf : p.find? (fun kv => !(ks.contains kv.1)) with
    | none =>
      have hall := List.find?_eq_none.mp hf
      refine iff_of_true (by simp only [checkParams, hf]) ?_
      intro k hk
      obtain ⟨kv, hkv, hk1⟩ := List.mem_map.mp hk
      have hnot := hall kv hkv
      rw [hmem kv] at hnot
      rw [← hk1]
      exact not_not.mp hnot
    | some kv =>
      have hp := List.find?_some hf
      have hm := List.mem_of_find?_eq_some hf
      refine iff_of_false (by simp only [checkParams, hf]; simp) ?_
      intro hforall
      exact (hmem kv).mp hp
        (hforall kv.1 (List.mem_map.mpr ⟨kv, hm, rfl⟩))
  · intro err herr
    cases hf : p.find? (fun kv => !(ks.contains kv.1)) with
    | none =>
      have hok : checkParams p ks = Except.ok () := by
        simp only [checkParams, hf]
      rw [hok] at herr
      exact Except.noConfusion herr
    | some kv =>
      have hp := List.find?_some hf
      have hm := List.mem_of_find?_eq_some hf
      have hkey : checkParams p ks = Except.error ⟨kv.1⟩ := by
        simp only [checkParams, hf]
      rw [hkey] at herr
      injection herr with h
      subst h
      exact ⟨List.mem_map.mpr ⟨kv, hm, rfl⟩, (hmem kv).mp hp⟩
  · intro build err herr
    simp [checkedSectionBuilder, herr]

/-- C4 witness: the empty mapping and a recognized-subset mapping pass the
gate for the file-data section; the unrecognized key "typo" makes the gate —
and hence the checked build — fail with that key, before any tree exists. -/
theorem checkParams_spec_witness :
    (checkParams ([] : List (String × PyVal)) FILE_DATA_PARAMS
      = Except.ok ()) ∧
    (checkParams [("dataRate", PyVal.list ["256"])] FILE_DATA_PARAMS
      = Except.ok ()) ∧
    (checkedSectionBuilder FILE_DATA_PARAMS [("typo", PyVal.none)]
        (fun _ => elementNS "fileData")
      = Except.error ⟨"typo"⟩) :=
  ⟨(checkParams_spec ([] : List (String × PyVal)) FILE_DATA_PARAMS).1.mpr
      (by simp),
    (checkParams_spec [("dataRate", PyVal.list ["256"])]
        FILE_DATA_PARAMS).1.mpr (by decide),
    (checkParams_spec [("typo", PyVal.none)] FILE_DATA_PARAMS).2.2
      (fun _ => elementNS "fileData") ⟨"typo"⟩ rfl⟩
